import Mathlib

/-!
Shallow embedding of the fa5-replayer repository: the Favero FA5 packet
decoder, the action-event detector state machine, the serial-loop duplicate
filter, the rolling video frame buffer, the clip extraction routine
(src/server.py), the reference packet builder (src/sim.py), and the
fencing_recorder.py variant whose class lacks a detect_clip_events method.
Machine bytes are modelled as Nat (values 0..255 where the source guarantees
it), wall-clock instants as rationals, and video frames as an arbitrary type.
-/

/-- Decoded match-state snapshot: the dict returned by `parse_favero_packet`
in src/server.py (keys right_score, left_score, seconds, minutes, lights,
matches, cards; the source key `matches` is a reserved word in Lean, so it is
rendered `match_number` here, the name the spec uses for that field). -/
structure MatchSnapshot where
  right_score : Nat
  left_score : Nat
  seconds : Nat
  minutes : Nat
  lights : Nat
  match_number : Nat
  cards : Nat
deriving DecidableEq, Repr

/-- `parse_favero_packet` from src/server.py: rejects unless the record is
exactly 10 bytes, byte 0 is 0xFF, and byte 9 equals the sum of bytes 0..8
mod 256; otherwise maps payload bytes positionally to the snapshot. -/
def parse_favero_packet (packet : List Nat) : Option MatchSnapshot :=
  if packet.length ≠ 10 ∨ packet.getD 0 0 ≠ 0xFF then
    none
  else
    let checksum := (packet.take 9).sum % 256
    if checksum ≠ packet.getD 9 0 then
      none
    else
      some { right_score := packet.getD 1 0
             left_score := packet.getD 2 0
             seconds := packet.getD 3 0
             minutes := packet.getD 4 0
             lights := packet.getD 5 0
             match_number := packet.getD 6 0
             cards := packet.getD 8 0 }

/-- The mutable detector state of `FencingVideoRecorder` in src/server.py:
last_timer, recording_start_time, currently_recording, last_packet. -/
structure DetectorState where
  last_timer : Option Nat
  recording_start_time : Option ℚ
  currently_recording : Bool
  last_packet : Option MatchSnapshot
deriving DecidableEq, Repr

/-- The initial detector state set in `FencingVideoRecorder.__init__`. -/
def initDetectorState : DetectorState :=
  { last_timer := none
    recording_start_time := none
    currently_recording := false
    last_packet := none }

/-- Why an action ended: a valid hit light, or the 15-second halt timeout. -/
inductive EndReason where
  | HitDetected : EndReason
  | Timeout : EndReason
deriving DecidableEq, Repr

/-- Lifecycle event emitted by `detect_clip_events` (an `ActionEnded` event
corresponds to the call to `save_video_clip` with the triggering snapshot). -/
inductive ClipEvent where
  | ActionStarted : ClipEvent
  | ActionEnded : EndReason → MatchSnapshot → ClipEvent
deriving DecidableEq, Repr

/-- Frames of the rolling buffer whose capture timestamp lies in the padded
window [start_time - 1.0, end_time + 1.0], in buffer order: the
`clip_frames` list built inside `save_video_clip` in src/server.py. -/
def clipWindowFrames {α : Type} (buffer : List (α × ℚ)) (start_time end_time : ℚ) :
    List α :=
  (buffer.filter fun ft =>
    decide (start_time - 1 ≤ ft.2) && decide (ft.2 ≤ end_time + 1)).map Prod.fst

/-- `save_video_clip` from src/server.py, abstracted over the encoder: if
fewer than 10 frames fall in the padded window it returns without invoking
the VideoWriter (`none`); otherwise it hands exactly the windowed frames to
the writer (`some`). -/
def save_video_clip {α : Type} (buffer : List (α × ℚ)) (start_time end_time : ℚ) :
    Option (List α) :=
  let clip_frames := clipWindowFrames buffer start_time end_time
  if clip_frames.length < 10 then none
  else some clip_frames

/-- The Python guard `self.last_timer is not None and current_timer < self.last_timer`
guard of the START branch. -/
def startCond (s : DetectorState) (current_timer : Nat) : Bool :=
  match s.last_timer with
  | none => false
  | some lt => decide (current_timer < lt)

/-- The Python guard `self.last_timer == current_timer` of the TIMEOUT branch
(`None == n` is false in Python). -/
def timerUnchanged (s : DetectorState) (current_timer : Nat) : Bool :=
  match s.last_timer with
  | none => false
  | some lt => decide (lt = current_timer)

/-- `detect_clip_events` from src/server.py, at wall-clock instant `now`,
with the rolling frame buffer passed explicitly. Returns the updated state,
the emitted lifecycle event (if any), and the frames handed to the encoder
by `save_video_clip` (if it was invoked and did not abort). -/
def detect_clip_events {α : Type} (buffer : List (α × ℚ)) (s : DetectorState)
    (data : MatchSnapshot) (now : ℚ) :
    DetectorState × Option ClipEvent × Option (List α) :=
  let current_timer := data.minutes * 60 + data.seconds
  let hit_detected := data.lights &&& 0x0C
  if startCond s current_timer && !s.currently_recording then
    ({ s with recording_start_time := some now
              currently_recording := true
              last_timer := some current_timer },
     some ClipEvent.ActionStarted, none)
  else if (hit_detected != 0) && s.currently_recording then
    ({ s with currently_recording := false, last_timer := some current_timer },
     some (ClipEvent.ActionEnded EndReason.HitDetected data),
     save_video_clip buffer (s.recording_start_time.getD 0) now)
  else if timerUnchanged s current_timer && s.currently_recording
          && decide (now - s.recording_start_time.getD 0 > 15) then
    ({ s with currently_recording := false, last_timer := some current_timer },
     some (ClipEvent.ActionEnded EndReason.Timeout data),
     save_video_clip buffer (s.recording_start_time.getD 0) now)
  else
    ({ s with last_timer := some current_timer }, none, none)

/-- One iteration of `serial_monitoring_loop` in src/server.py after a
10-byte read: parse, and only when the parse accepted and the snapshot
differs from `last_packet`, run the detector and store the snapshot. -/
def serial_monitoring_step {α : Type} (buffer : List (α × ℚ)) (s : DetectorState)
    (packet : List Nat) (now : ℚ) :
    DetectorState × Option ClipEvent × Option (List α) :=
  match parse_favero_packet packet with
  | none => (s, none, none)
  | some data =>
    if s.last_packet = some data then
      (s, none, none)
    else
      let r := detect_clip_events buffer s data now
      ({ r.1 with last_packet := some data }, r.2.1, r.2.2)

/-- Folding `serial_monitoring_step` over a sequence of (packet, instant)
inputs, collecting every emitted lifecycle event in order. -/
def serial_monitoring_run {α : Type} (buffer : List (α × ℚ)) (s : DetectorState)
    (inputs : List (List Nat × ℚ)) : DetectorState × List ClipEvent :=
  inputs.foldl
    (fun acc pk =>
      let r := serial_monitoring_step buffer acc.1 pk.1 pk.2
      (r.1, acc.2 ++ r.2.1.toList))
    (s, [])

/-- The `maxlen` of the rolling video buffer deque in src/server.py
(`deque(maxlen=1800)  # 30fps * 60 seconds`). -/
def videoBufferMaxlen : Nat := 1800

/-- `collections.deque(maxlen=m).append`: keep the trailing `m` elements,
evicting from the left once the length would exceed `m`. -/
def dequeAppend {β : Type} (maxlen : Nat) (buf : List β) (x : β) : List β :=
  (buf ++ [x]).drop (buf.length + 1 - maxlen)

/-- The buffer append performed by `video_capture_loop` in src/server.py:
`self.video_buffer.append((frame.copy(), current_time))`. -/
def video_capture_append {α : Type} (buf : List (α × ℚ)) (frame : α) (now : ℚ) :
    List (α × ℚ) :=
  dequeAppend videoBufferMaxlen buf (frame, now)

/-- The `FencingState` dataclass of src/sim.py (its attribute `matches` is a
reserved word in Lean and is rendered `match_number` here). -/
structure FencingState where
  left_score : Nat
  right_score : Nat
  minutes : Nat
  seconds : Nat
  lights : Nat
  match_number : Nat
  cards : Nat
  timer_running : Bool
deriving DecidableEq, Repr

/-- `FA5Simulator.create_packet` from src/sim.py: the 10-byte record with the
0xFF marker, the positionally packed state fields, a zero byte 7, and the
checksum byte (sum of bytes 0..8 mod 256). -/
def create_packet (st : FencingState) : List Nat :=
  let payload : List Nat :=
    [0xFF, st.right_score, st.left_score, st.seconds, st.minutes,
     st.lights, st.match_number, 0x00, st.cards]
  payload ++ [payload.sum % 256]

/-- The methods defined by `class FencingVideoRecorder` in
src/fencing_recorder.py, in source order. The detector body in that file sits
after the `return bytes(packet)` statement inside `simulate_realistic_packet`,
so it never becomes a method: `detect_clip_events` is absent from this table. -/
def frMethodNames : List String :=
  ["__init__", "connect_scoring_machine", "parse_favero_packet",
   "get_test_packet", "simulate_realistic_packet", "save_video_clip",
   "video_capture_loop", "serial_monitoring_loop", "start", "stop"]

/-- Attribute lookup and call of `self.detect_clip_events(data)` inside the
`try` block of `serial_monitoring_loop` in src/fencing_recorder.py: if the
class defines the method the detector runs, otherwise the lookup raises
`AttributeError`. -/
def fr_detect_lookup {α : Type} (buffer : List (α × ℚ)) (s : DetectorState)
    (data : MatchSnapshot) (now : ℚ) :
    Except String (DetectorState × Option ClipEvent × Option (List α)) :=
  if frMethodNames.contains ("detect_clip_events") then
    Except.ok (detect_clip_events buffer s data now)
  else
    Except.error ("AttributeError: detect_clip_events")

/-- One iteration of `serial_monitoring_loop` in src/fencing_recorder.py for a
delivered packet: the duplicate filter runs, then the method call; the
surrounding `except` clause swallows any raised exception, so on
`AttributeError` no state changes and `last_packet` is never assigned (the
assignment sits after the failing call inside the `try`). -/
def fr_serial_monitoring_step {α : Type} (buffer : List (α × ℚ))
    (s : DetectorState) (packet : List Nat) (now : ℚ) :
    DetectorState × Option ClipEvent × Option (List α) :=
  match parse_favero_packet packet with
  | none => (s, none, none)
  | some data =>
    if s.last_packet = some data then
      (s, none, none)
    else
      match fr_detect_lookup buffer s data now with
      | Except.ok r => ({ r.1 with last_packet := some data }, r.2.1, r.2.2)
      | Except.error _ => (s, none, none)

/-- Folding `fr_serial_monitoring_step` over a sequence of (packet, instant)
inputs, collecting every emitted lifecycle event in order. -/
def fr_serial_monitoring_run {α : Type} (buffer : List (α × ℚ))
    (s : DetectorState) (inputs : List (List Nat × ℚ)) :
    DetectorState × List ClipEvent :=
  inputs.foldl
    (fun acc pk =>
      let r := fr_serial_monitoring_step buffer acc.1 pk.1 pk.2
      (r.1, acc.2 ++ r.2.1.toList))
    (s, [])

/-- Snapshot with combined clock 180 (3:00), no lights. -/
def snapClock180 : MatchSnapshot :=
  { right_score := 0, left_score := 0, seconds := 0, minutes := 3,
    lights := 0, match_number := 1, cards := 0 }

/-- Snapshot with combined clock 179 (2:59), no lights. -/
def snapClock179 : MatchSnapshot :=
  { right_score := 0, left_score := 0, seconds := 59, minutes := 2,
    lights := 0, match_number := 1, cards := 0 }

/-- A snapshot distinct from `snapClock179` (different cards field) with the
same combined clock 179. -/
def snapClock179b : MatchSnapshot :=
  { right_score := 0, left_score := 0, seconds := 59, minutes := 2,
    lights := 0, match_number := 1, cards := 1 }

/-- A valid 10-byte record decoding to `snapClock180`:
sum of bytes 0..8 is 255+3+1 = 259, checksum 259 mod 256 = 3. -/
def packetClock180 : List Nat :=
  [0xFF, 0, 0, 0, 3, 0, 1, 0, 0, 3]

/-- Snapshot with a red (valid-hit, bit 2) light lit: lights = 0x04. -/
def snapHitRed : MatchSnapshot :=
  { right_score := 0, left_score := 1, seconds := 57, minutes := 2,
    lights := 0x04, match_number := 1, cards := 0 }

theorem dequeAppend_length {β : Type} (m : Nat) (buf : List β) (x : β) :
    (dequeAppend m buf x).length = min (buf.length + 1) m := by
  simp [dequeAppend]
  omega

theorem foldl_dequeAppend {β : Type} (m : Nat) (fs : List β) :
    ∀ buf : List β, buf.length ≤ m →
      List.foldl (fun b y => dequeAppend m b y) buf fs =
        (buf ++ fs).drop (buf.length + fs.length - m) := by
  induction fs with
  | nil =>
    intro buf hlen
    have h0 : buf.length - m = 0 := by omega
    simp [h0]
  | cons x xs ih =>
    intro buf hlen
    have hstep : (dequeAppend m buf x).length ≤ m := by
      have := dequeAppend_length m buf x
      omega
    have hk : buf.length + 1 - m ≤ (buf ++ [x]).length := by
      simp
    calc List.foldl (fun b y => dequeAppend m b y) buf (x :: xs)
        = List.foldl (fun b y => dequeAppend m b y) (dequeAppend m buf x) xs := rfl
      _ = ((dequeAppend m buf x) ++ xs).drop
            ((dequeAppend m buf x).length + xs.length - m) := ih _ hstep
      _ = (buf ++ x :: xs).drop (buf.length + (xs.length + 1) - m) := by
          simp only [dequeAppend]
          rw [← List.drop_append_of_le_length hk, List.drop_drop]
          rw [show (buf ++ [x]) ++ xs = buf ++ x :: xs by simp]
          congr 1
          simp
          omega

/-- If the parsed snapshot equals the stored `last_packet`, one loop
iteration of src/server.py changes nothing and emits nothing. -/
theorem serial_monitoring_step_dup {α : Type} (buffer : List (α × ℚ))
    (s : DetectorState) (packet : List Nat) (now : ℚ) (d : MatchSnapshot)
    (hparse : parse_favero_packet packet = some d)
    (hdup : s.last_packet = some d) :
    serial_monitoring_step buffer s packet now = (s, none, none) := by
  simp [serial_monitoring_step, hparse, hdup]

/-- Folding the loop over inputs that all parse to the stored `last_packet`
leaves the detector state and the accumulated event list unchanged. -/
theorem serial_monitoring_foldl_dup {α : Type} (buffer : List (α × ℚ))
    (s : DetectorState) (d : MatchSnapshot) (hdup : s.last_packet = some d)
    (inputs : List (List Nat × ℚ))
    (hall : ∀ pk ∈ inputs, parse_favero_packet pk.1 = some d) :
    ∀ acc : List ClipEvent,
      List.foldl
        (fun a pk =>
          let r := serial_monitoring_step buffer a.1 pk.1 pk.2
          (r.1, a.2 ++ r.2.1.toList))
        (s, acc) inputs = (s, acc) := by
  induction inputs with
  | nil => intro acc; rfl
  | cons pk rest ih =>
    intro acc
    have hpk : parse_favero_packet pk.1 = some d := hall pk (by simp)
    have hstep := serial_monitoring_step_dup buffer s pk.1 pk.2 d hpk hdup
    simp only [List.foldl_cons, hstep, Option.toList_none, List.append_nil]
    exact ih (fun q hq => hall q (by simp [hq])) acc

/-- C1: the decoder accepts a telemetry record iff it is exactly 10 bytes
long, byte 0 is 0xFF, and byte 9 equals the sum of bytes 0..8 mod 256; on
acceptance the snapshot fields are mapped positionally (byte1→right_score,
byte2→left_score, byte3→clock_seconds, byte4→clock_minutes,
byte5→indicator_flags, byte6→match_number, byte8→penalty_flags, byte 7
ignored); otherwise it returns the rejection sentinel `none`. -/
theorem c1_decoder_characterization (packet : List Nat) :
    parse_favero_packet packet =
      if packet.length = 10 ∧ packet.getD 0 0 = 0xFF ∧
          (packet.take 9).sum % 256 = packet.getD 9 0 then
        some { right_score := packet.getD 1 0
               left_score := packet.getD 2 0
               seconds := packet.getD 3 0
               minutes := packet.getD 4 0
               lights := packet.getD 5 0
               match_number := packet.getD 6 0
               cards := packet.getD 8 0 }
      else none := by
  by_cases h1 : packet.length = 10 <;>
    by_cases h2 : packet.getD 0 0 = 0xFF <;>
      by_cases h3 : (packet.take 9).sum % 256 = packet.getD 9 0 <;>
        simp [parse_favero_packet, h1, h2, h3, ite_and]

/-- C2: from `Idle` with a known previous clock `p`, a snapshot whose
combined clock `c` satisfies `c < p` produces exactly one `ActionStarted`,
sets `currently_recording` and `recording_start_time := now`; an upward
clock jump (`p < c`) produces no event, as does the very first snapshot
(`last_timer = none`); concretely, processing clocks 180, 179, 179 from the
initial state yields exactly one `ActionStarted`. -/
theorem c2_start_transition {α : Type} (buffer : List (α × ℚ))
    (s : DetectorState) (d : MatchSnapshot) (now : ℚ)
    (hidle : s.currently_recording = false) :
    (∀ p, s.last_timer = some p → d.minutes * 60 + d.seconds < p →
      detect_clip_events buffer s d now =
        ({ s with recording_start_time := some now
                  currently_recording := true
                  last_timer := some (d.minutes * 60 + d.seconds) },
         some ClipEvent.ActionStarted, none)) ∧
    (∀ p, s.last_timer = some p → p < d.minutes * 60 + d.seconds →
      detect_clip_events buffer s d now =
        ({ s with last_timer := some (d.minutes * 60 + d.seconds) },
         none, none)) ∧
    (s.last_timer = none →
      detect_clip_events buffer s d now =
        ({ s with last_timer := some (d.minutes * 60 + d.seconds) },
         none, none)) ∧
    ((detect_clip_events ([] : List (Nat × ℚ)) initDetectorState
        snapClock180 0).2.1 = none ∧
     (detect_clip_events ([] : List (Nat × ℚ))
        (detect_clip_events ([] : List (Nat × ℚ)) initDetectorState
          snapClock180 0).1
        snapClock179 1).2.1 = some ClipEvent.ActionStarted ∧
     (detect_clip_events ([] : List (Nat × ℚ))
        (detect_clip_events ([] : List (Nat × ℚ))
          (detect_clip_events ([] : List (Nat × ℚ)) initDetectorState
            snapClock180 0).1
          snapClock179 1).1
        snapClock179b 2).2.1 = none) := by
  refine ⟨?_, ?_, ?_, by decide, by decide,
    by norm_num [detect_clip_events, startCond, timerUnchanged,
      initDetectorState, snapClock180, snapClock179, snapClock179b]⟩
  · intro p hp hlt
    simp [detect_clip_events, startCond, hp, hlt, hidle]
  · intro p hp hgt
    have hns : ¬ (d.minutes * 60 + d.seconds < p) := by omega
    have hne : ¬ (p = d.minutes * 60 + d.seconds) := by omega
    simp [detect_clip_events, startCond, timerUnchanged, hp, hidle, hns, hne]
  · intro hp
    simp [detect_clip_events, startCond, timerUnchanged, hp, hidle]

/-- Witness for C2 at a concrete idle state with previous clock 180 and an
incoming snapshot at clock 179. -/
theorem c2_start_transition_witness :
    ({ initDetectorState with last_timer := some 180 } :
        DetectorState).currently_recording = false ∧
    detect_clip_events ([] : List (Nat × ℚ))
        { initDetectorState with last_timer := some 180 } snapClock179 5 =
      ({ { initDetectorState with last_timer := some 180 } with
           recording_start_time := some 5
           currently_recording := true
           last_timer := some (snapClock179.minutes * 60 + snapClock179.seconds) },
       some ClipEvent.ActionStarted, none) :=
  ⟨rfl,
   (c2_start_transition ([] : List (Nat × ℚ))
       { initDetectorState with last_timer := some 180 } snapClock179 5
       rfl).1 180 rfl (by decide)⟩

/-- C3: while `Recording`, a snapshot with indicator bit 2 or bit 3 set
(`lights & 0x0C ≠ 0`) ends the action with reason `HitDetected`, invoking
clip extraction with that snapshot, and returns the detector to `Idle`,
regardless of the clock; a snapshot with those bits clear (in particular one
with only the off-target bits 0 and 1) never produces a `HitDetected` end. -/
theorem c3_hit_end {α : Type} (buffer : List (α × ℚ)) (s : DetectorState)
    (d : MatchSnapshot) (now t0 : ℚ)
    (hrec : s.currently_recording = true)
    (ht : s.recording_start_time = some t0) :
    (d.lights &&& 0x0C ≠ 0 →
      detect_clip_events buffer s d now =
        ({ s with currently_recording := false
                  last_timer := some (d.minutes * 60 + d.seconds) },
         some (ClipEvent.ActionEnded EndReason.HitDetected d),
         save_video_clip buffer t0 now)) ∧
    (d.lights &&& 0x0C = 0 →
      ∀ r, (detect_clip_events buffer s d now).2.1 ≠
        some (ClipEvent.ActionEnded EndReason.HitDetected r)) := by
  constructor
  · intro hhit
    have hb : (d.lights &&& 0x0C != 0) = true := by simpa using hhit
    simp [detect_clip_events, hrec, ht, hb]
  · intro h0 r
    have hb : (d.lights &&& 0x0C != 0) = false := by simpa using h0
    simp only [detect_clip_events, hb, Bool.false_and]
    split_ifs <;> simp_all

/-- Witness for C3 at a recording state started at time 0, with a red-light
snapshot arriving at time 1. -/
theorem c3_hit_end_witness :
    (⟨some 179, some 0, true, none⟩ : DetectorState).currently_recording = true ∧
    snapHitRed.lights &&& 0x0C ≠ 0 ∧
    detect_clip_events ([] : List (Nat × ℚ)) ⟨some 179, some 0, true, none⟩
        snapHitRed 1 =
      ({ (⟨some 179, some 0, true, none⟩ : DetectorState) with
           currently_recording := false
           last_timer := some (snapHitRed.minutes * 60 + snapHitRed.seconds) },
       some (ClipEvent.ActionEnded EndReason.HitDetected snapHitRed),
       save_video_clip ([] : List (Nat × ℚ)) 0 1) :=
  ⟨rfl, by decide,
   (c3_hit_end ([] : List (Nat × ℚ)) ⟨some 179, some 0, true, none⟩ snapHitRed
       1 0 rfl rfl).1 (by decide)⟩

/-- C4: while `Recording` with no valid-hit bit set, a snapshot whose
combined clock equals the stored previous clock ends the action with reason
`Timeout` exactly when more than 15 seconds have elapsed since
`recording_start_time`; at 15 seconds or less no event is emitted and the
detector stays `Recording`. -/
theorem c4_timeout_end {α : Type} (buffer : List (α × ℚ)) (s : DetectorState)
    (d : MatchSnapshot) (now t0 : ℚ) (p : Nat)
    (hrec : s.currently_recording = true)
    (ht : s.recording_start_time = some t0)
    (hp : s.last_timer = some p)
    (hnohit : d.lights &&& 0x0C = 0)
    (hclock : d.minutes * 60 + d.seconds = p) :
    (15 < now - t0 →
      detect_clip_events buffer s d now =
        ({ s with currently_recording := false
                  last_timer := some (d.minutes * 60 + d.seconds) },
         some (ClipEvent.ActionEnded EndReason.Timeout d),
         save_video_clip buffer t0 now)) ∧
    (now - t0 ≤ 15 →
      detect_clip_events buffer s d now =
        ({ s with last_timer := some (d.minutes * 60 + d.seconds) },
         none, none)) := by
  have hb : (d.lights &&& 0x0C != 0) = false := by simpa using hnohit
  have hu : timerUnchanged s (d.minutes * 60 + d.seconds) = true := by
    simp [timerUnchanged, hp, hclock]
  constructor
  · intro hgt
    simp [detect_clip_events, hrec, ht, hb, hu, hgt]
  · intro hle
    have hng : ¬ (15 < now - t0) := not_lt.mpr hle
    simp [detect_clip_events, hrec, ht, hb, hu, hng]

/-- Witness for C4 at a recording state started at time 0 with previous
clock 179, receiving an unchanged-clock snapshot at time 16 (elapsed 16 s). -/
theorem c4_timeout_end_witness :
    (15 : ℚ) < 16 - 0 ∧
    detect_clip_events ([] : List (Nat × ℚ)) ⟨some 179, some 0, true, none⟩
        snapClock179 16 =
      ({ (⟨some 179, some 0, true, none⟩ : DetectorState) with
           currently_recording := false
           last_timer := some (snapClock179.minutes * 60 + snapClock179.seconds) },
       some (ClipEvent.ActionEnded EndReason.Timeout snapClock179),
       save_video_clip ([] : List (Nat × ℚ)) 0 16) :=
  ⟨by norm_num,
   (c4_timeout_end ([] : List (Nat × ℚ)) ⟨some 179, some 0, true, none⟩
       snapClock179 16 0 179 rfl rfl rfl (by decide) (by decide)).1
     (by norm_num)⟩

/-- C5: an accepted snapshot field-for-field equal (structural equality over
all seven decoded fields) to the stored `last_packet` causes no detector
transition: one loop iteration leaves the whole detector state unchanged and
emits nothing. -/
theorem c5_duplicate_suppression {α : Type} (buffer : List (α × ℚ))
    (s : DetectorState) (packet : List Nat) (now : ℚ) (d : MatchSnapshot)
    (hparse : parse_favero_packet packet = some d)
    (hdup : s.last_packet = some d) :
    serial_monitoring_step buffer s packet now = (s, none, none) :=
  serial_monitoring_step_dup buffer s packet now d hparse hdup

/-- Witness for C5: the record `packetClock180` delivered when `last_packet`
already holds its decoded snapshot. -/
theorem c5_duplicate_suppression_witness :
    parse_favero_packet packetClock180 = some snapClock180 ∧
    ({ initDetectorState with last_packet := some snapClock180 } :
        DetectorState).last_packet = some snapClock180 ∧
    serial_monitoring_step ([] : List (Nat × ℚ))
        { initDetectorState with last_packet := some snapClock180 }
        packetClock180 0 =
      ({ initDetectorState with last_packet := some snapClock180 },
       none, none) :=
  ⟨by decide, rfl,
   c5_duplicate_suppression ([] : List (Nat × ℚ))
     { initDetectorState with last_packet := some snapClock180 }
     packetClock180 0 snapClock180 (by decide) rfl⟩

/-- C6: round-trip — for every simulator state whose seven packed fields are
byte-representable (0..255, the range that the bytearray assignments in
`create_packet` accepts), building the record with `create_packet` and
decoding it with `parse_favero_packet` accepts and reproduces every field. -/
theorem c6_round_trip (st : FencingState)
    (_h1 : st.left_score < 256) (_h2 : st.right_score < 256)
    (_h3 : st.minutes < 256) (_h4 : st.seconds < 256) (_h5 : st.lights < 256)
    (_h6 : st.match_number < 256) (_h7 : st.cards < 256) :
    parse_favero_packet (create_packet st) =
      some { right_score := st.right_score
             left_score := st.left_score
             seconds := st.seconds
             minutes := st.minutes
             lights := st.lights
             match_number := st.match_number
             cards := st.cards } := by
  simp [parse_favero_packet, create_packet]

/-- Witness for C6 at a concrete simulator state with distinct field
values. -/
theorem c6_round_trip_witness :
    ((1 : Nat) < 256 ∧ (2 : Nat) < 256 ∧ (3 : Nat) < 256 ∧ (4 : Nat) < 256 ∧
     (5 : Nat) < 256 ∧ (6 : Nat) < 256 ∧ (7 : Nat) < 256) ∧
    parse_favero_packet (create_packet ⟨1, 2, 3, 4, 5, 6, 7, false⟩) =
      some { right_score := 2, left_score := 1, seconds := 4, minutes := 3,
             lights := 5, match_number := 6, cards := 7 } :=
  ⟨by decide,
   c6_round_trip ⟨1, 2, 3, 4, 5, 6, 7, false⟩ (by decide) (by decide)
     (by decide) (by decide) (by decide) (by decide) (by decide)⟩

/-- C7: the rolling frame buffer is bounded by its maxlen of 1800
(= 30 fps × 60 s): an append never leaves more than 1800 entries; below
capacity an append just adds at the right; at exactly capacity it evicts
exactly the single oldest entry with the survivors kept verbatim in order;
and appending capacity+1 frames into an empty buffer leaves exactly the
last capacity of them, i.e. the input sequence minus its oldest element. -/
theorem c7_ring_buffer_bound {α : Type} (buf : List (α × ℚ)) (f : α) (t : ℚ)
    (_hlen : buf.length ≤ videoBufferMaxlen)
    (fs : List (α × ℚ)) (hfs : fs.length = videoBufferMaxlen + 1) :
    videoBufferMaxlen = 30 * 60 ∧
    (video_capture_append buf f t).length ≤ videoBufferMaxlen ∧
    (buf.length < videoBufferMaxlen →
      video_capture_append buf f t = buf ++ [(f, t)]) ∧
    (buf.length = videoBufferMaxlen →
      video_capture_append buf f t = buf.tail ++ [(f, t)]) ∧
    List.foldl (fun b ft => video_capture_append b ft.1 ft.2) [] fs =
      fs.drop 1 := by
  refine ⟨rfl, ?_, ?_, ?_, ?_⟩
  · have := dequeAppend_length videoBufferMaxlen buf (f, t)
    simp only [video_capture_append]
    omega
  · intro hlt
    have h0 : buf.length + 1 - videoBufferMaxlen = 0 := by omega
    simp [video_capture_append, dequeAppend, h0]
  · intro heq
    have hcap : (0 : Nat) < videoBufferMaxlen := by decide
    have h1 : buf.length + 1 - videoBufferMaxlen = 1 := by omega
    have hk : (1 : Nat) ≤ buf.length := by omega
    simp only [video_capture_append, dequeAppend, h1]
    rw [List.drop_append_of_le_length (by simpa using hk), List.drop_one]
  · have hfun : (fun (b : List (α × ℚ)) (ft : α × ℚ) =>
        video_capture_append b ft.1 ft.2) =
        fun b y => dequeAppend videoBufferMaxlen b y := by
      funext b y
      simp [video_capture_append]
    rw [hfun, foldl_dequeAppend videoBufferMaxlen fs [] (by simp)]
    have hidx : ([] : List (α × ℚ)).length + fs.length - videoBufferMaxlen
        = 1 := by
      simp only [List.length_nil]
      omega
    rw [hidx]
    simp

/-- Witness for C7 with an empty initial buffer and 1801 identical frames. -/
theorem c7_ring_buffer_bound_witness :
    ([] : List (Nat × ℚ)).length ≤ videoBufferMaxlen ∧
    (List.replicate (videoBufferMaxlen + 1) ((0 : Nat), (0 : ℚ))).length =
      videoBufferMaxlen + 1 ∧
    List.foldl (fun b ft => video_capture_append b ft.1 ft.2) []
        (List.replicate (videoBufferMaxlen + 1) ((0 : Nat), (0 : ℚ))) =
      (List.replicate (videoBufferMaxlen + 1) ((0 : Nat), (0 : ℚ))).drop 1 :=
  ⟨by simp, by simp,
   (c7_ring_buffer_bound ([] : List (Nat × ℚ)) 0 0 (by simp)
       (List.replicate (videoBufferMaxlen + 1) ((0 : Nat), (0 : ℚ)))
       (by simp)).2.2.2.2⟩

/-- C8: when extraction is triggered for the padded window
[start_time - 1, end_time + 1], fewer than 10 in-window frames make
`save_video_clip` return `none` (no VideoWriter, no file) while 10 or more
hand exactly the windowed frames to the writer; and the hit-end transition
to `Idle` takes effect regardless of the buffer contents, so an aborted
extraction does not roll the detector back. -/
theorem c8_insufficient_frames_abort {α : Type} (buffer : List (α × ℚ))
    (start_time end_time : ℚ) (s : DetectorState) (d : MatchSnapshot)
    (now t0 : ℚ)
    (hrec : s.currently_recording = true)
    (ht : s.recording_start_time = some t0)
    (hhit : d.lights &&& 0x0C ≠ 0) :
    ((clipWindowFrames buffer start_time end_time).length < 10 →
      save_video_clip buffer start_time end_time = none) ∧
    (10 ≤ (clipWindowFrames buffer start_time end_time).length →
      save_video_clip buffer start_time end_time =
        some (clipWindowFrames buffer start_time end_time)) ∧
    (detect_clip_events buffer s d now).1.currently_recording = false := by
  refine ⟨?_, ?_, ?_⟩
  · intro hlt
    simp [save_video_clip, hlt]
  · intro hge
    simp [save_video_clip, Nat.not_lt.mpr hge]
  · have hb : (d.lights &&& 0x0C != 0) = true := by simpa using hhit
    simp [detect_clip_events, hrec, ht, hb]

/-- Witness for C8: an empty buffer (0 in-window frames) aborts the save,
yet the hit-end still moves the detector to Idle. -/
theorem c8_insufficient_frames_abort_witness :
    (clipWindowFrames ([] : List (Nat × ℚ)) 0 1).length < 10 ∧
    save_video_clip ([] : List (Nat × ℚ)) 0 1 = none ∧
    (detect_clip_events ([] : List (Nat × ℚ)) ⟨some 170, some 0, true, none⟩
        snapHitRed 1).1.currently_recording = false :=
  ⟨by decide,
   (c8_insufficient_frames_abort ([] : List (Nat × ℚ)) 0 1
       ⟨some 170, some 0, true, none⟩ snapHitRed 1 0 rfl rfl (by decide)).1
     (by decide),
   (c8_insufficient_frames_abort ([] : List (Nat × ℚ)) 0 1
       ⟨some 170, some 0, true, none⟩ snapHitRed 1 0 rfl rfl (by decide)).2.2⟩

/-- C9: with the instrument fully halted — every delivered record parsing to
the very snapshot already stored in `last_packet` — the duplicate filter in
the telemetry loop discards everything before the detector runs: the run
leaves the state (in particular `currently_recording = true`) untouched and
emits no event, so `ActionEnded{Timeout}` never fires; and whenever one loop
iteration does emit a Timeout end, the decoded snapshot differed from
`last_packet` yet had an unchanged combined clock. -/
theorem c9_timeout_needs_distinct_snapshot {α : Type} (buffer : List (α × ℚ)) :
    (∀ (s : DetectorState) (d : MatchSnapshot) (inputs : List (List Nat × ℚ)),
      s.last_packet = some d → s.currently_recording = true →
      (∀ pk ∈ inputs, parse_favero_packet pk.1 = some d) →
      serial_monitoring_run buffer s inputs = (s, [])) ∧
    (∀ (s : DetectorState) (packet : List Nat) (now : ℚ) (r : MatchSnapshot),
      (serial_monitoring_step buffer s packet now).2.1 =
        some (ClipEvent.ActionEnded EndReason.Timeout r) →
      parse_favero_packet packet = some r ∧ s.last_packet ≠ some r ∧
        s.last_timer = some (r.minutes * 60 + r.seconds)) := by
  constructor
  · intro s d inputs hdup _hrec hall
    exact serial_monitoring_foldl_dup buffer s d hdup inputs hall []
  · intro s packet now r hev
    cases hp : parse_favero_packet packet with
    | none => simp [serial_monitoring_step, hp] at hev
    | some data =>
      by_cases hdup : s.last_packet = some data
      · simp [serial_monitoring_step, hp, hdup] at hev
      · simp only [serial_monitoring_step, hp, if_neg hdup] at hev
        simp only [detect_clip_events] at hev
        split_ifs at hev with hstart hhit htimeout
        · simp at hev
        · simp at hev
        · have hdata : data = r := by simpa using hev
          subst hdata
          refine ⟨rfl, hdup, ?_⟩
          have hu : timerUnchanged s (data.minutes * 60 + data.seconds)
              = true := by
            simp only [Bool.and_eq_true] at htimeout
            exact htimeout.1.1
          cases hlt : s.last_timer with
          | none => simp [timerUnchanged, hlt] at hu
          | some q =>
            simp only [timerUnchanged, hlt, decide_eq_true_eq] at hu
            exact congrArg some hu

/-- Witness for C9: a recording state whose stored snapshot keeps arriving;
two repeats of the same record change nothing and emit nothing. -/
theorem c9_timeout_needs_distinct_snapshot_witness :
    ({ initDetectorState with
         last_packet := some snapClock180
         currently_recording := true } : DetectorState).last_packet =
      some snapClock180 ∧
    serial_monitoring_run ([] : List (Nat × ℚ))
        { initDetectorState with
            last_packet := some snapClock180
            currently_recording := true }
        [(packetClock180, 0), (packetClock180, 1)] =
      ({ initDetectorState with
           last_packet := some snapClock180
           currently_recording := true }, []) :=
  ⟨rfl,
   (c9_timeout_needs_distinct_snapshot ([] : List (Nat × ℚ))).1
     { initDetectorState with
         last_packet := some snapClock180
         currently_recording := true }
     snapClock180 [(packetClock180, 0), (packetClock180, 1)] rfl rfl
     (by decide)⟩

/-- C10: in src/fencing_recorder.py the class defines no `detect_clip_events`
method (the detector body is stranded after the `return` inside
`simulate_realistic_packet`), so the attribute lookup in its telemetry loop
always raises `AttributeError`, the `except` clause swallows it, and over any
input sequence no lifecycle event is ever emitted, no clip is ever saved
from telemetry, and `last_packet` is never updated. -/
theorem c10_missing_detect_method {α : Type} (buffer : List (α × ℚ)) :
    ¬ ("detect_clip_events" ∈ frMethodNames) ∧
    (∀ (s : DetectorState) (d : MatchSnapshot) (now : ℚ),
      fr_detect_lookup buffer s d now =
        Except.error ("AttributeError: detect_clip_events")) ∧
    (∀ (s : DetectorState) (packet : List Nat) (now : ℚ),
      fr_serial_monitoring_step buffer s packet now = (s, none, none)) ∧
    (∀ (s : DetectorState) (inputs : List (List Nat × ℚ)),
      fr_serial_monitoring_run buffer s inputs = (s, [])) := by
  have hmem : ¬ ("detect_clip_events" ∈ frMethodNames) := by decide
  have hlookup : ∀ (s : DetectorState) (d : MatchSnapshot) (now : ℚ),
      fr_detect_lookup (α := α) buffer s d now =
        Except.error ("AttributeError: detect_clip_events") := by
    intro s d now
    simp [fr_detect_lookup, hmem]
  have hstep : ∀ (s : DetectorState) (packet : List Nat) (now : ℚ),
      fr_serial_monitoring_step (α := α) buffer s packet now =
        (s, none, none) := by
    intro s packet now
    cases hp : parse_favero_packet packet with
    | none => simp [fr_serial_monitoring_step, hp]
    | some data =>
      by_cases hdup : s.last_packet = some data
      · simp [fr_serial_monitoring_step, hp, hdup]
      · simp [fr_serial_monitoring_step, hp, hdup, hlookup s data now]
  have hrun : ∀ (s : DetectorState) (inputs : List (List Nat × ℚ)),
      fr_serial_monitoring_run (α := α) buffer s inputs = (s, []) := by
    intro s inputs
    have h : ∀ acc : List ClipEvent,
        List.foldl
          (fun a pk =>
            let r := fr_serial_monitoring_step buffer a.1 pk.1 pk.2
            (r.1, a.2 ++ r.2.1.toList))
          (s, acc) inputs = (s, acc) := by
      induction inputs with
      | nil => intro acc; rfl
      | cons pk rest ih =>
        intro acc
        have h1 := hstep s pk.1 pk.2
        simp only [List.foldl_cons, h1, Option.toList_none, List.append_nil]
        exact ih acc
    exact h []
  exact ⟨hmem, hlookup, hstep, hrun⟩

/-- Witness for C10: a fresh accepted record delivered to the initial state
of the fencing_recorder.py variant changes nothing and emits nothing. -/
theorem c10_missing_detect_method_witness :
    fr_serial_monitoring_step ([] : List (Nat × ℚ)) initDetectorState
        packetClock180 0 = (initDetectorState, none, none) :=
  (c10_missing_detect_method ([] : List (Nat × ℚ))).2.2.1 initDetectorState
    packetClock180 0
